import Mathlib

/-!
Verification development for the STAR-file writer (`src/starfile/writer.py`).

The Python module serializes data blocks (pandas DataFrames and flat dicts)
into the STAR text format.  This file gives a shallow embedding of the
writer: scalar cell values become an inductive `Cell`, DataFrames become
`Table` (ordered column names plus ordered rows), the renderers
(`quote`, `simple_block`, `loop_block`, `lines`) become pure Lean
functions over those types, input coercion (`coerce_data_blocks`,
`coerce_dict`, `coerce_dataframe`, `coerce_list`) runs over a `PyObj`
type that records the runtime type of each Python value (including the
exact-type versus strict-subclass distinction that `type(v) in (...)`
is sensitive to), and the file-system effects of `write` and
`backup_if_file_exists` are explicit state passing over an association
list from path to content.

Floating-point cells are outside the embedding: `Cell` covers strings,
integers and the missing-value marker, which is what the verified claims
quantify over.  Paths are plain strings and `Path.resolve()` is modelled
as the identity, so the backup path of `p` is `p ++ "~"`.
-/

namespace Starfile

/-- Scalar cell value of a data block: a Python `str`, `int`, or the
missing-value marker (`NaN` / `pd.NA`) that pandas renders as `na_rep`. -/
inductive Cell where
  | str (s : String)
  | int (n : Int)
  | na
deriving DecidableEq, Repr

/-- Embedding of `quote` from `writer.py`:
`if isinstance(x, str) and (quote_all_strings or ' ' in x or not x):`
wrap `x` in the quote character on both sides, `else` return `x` itself.
Python truthiness `not x` on a string is emptiness. -/
def quote (x : Cell) (quote_character : String) (quote_all_strings : Bool) : Cell :=
  match x with
  | .str s =>
      if quote_all_strings || s.data.contains ' ' || s.data.isEmpty then
        .str (quote_character ++ s ++ quote_character)
      else .str s
  | c => c

/-- Rendering of a cell by a Python f-string (`str()` of the object):
strings verbatim, integers in decimal, `float(nan)` prints as `nan`. -/
def pyStr : Cell → String
  | .str s => s
  | .int n => toString n
  | .na => "nan"

/-- Embedding of `simple_block` from `writer.py`: yields
`data_<block_name>`, an empty line, one line
`_<key>\t\t\t<quote(value)>` per entry (the three tabs are hardcoded in
the source f-string), then two empty lines. -/
def simple_block (block_name : String) (data : List (String × Cell))
    (quote_character : String) (quote_all_strings : Bool) : List String :=
  ["data_" ++ block_name, ""]
  ++ data.map (fun kv =>
      "_" ++ kv.1 ++ "\t\t\t" ++ pyStr (quote kv.2 quote_character quote_all_strings))
  ++ ["", ""]

/-- A pandas DataFrame: ordered column names and ordered rows of cells. -/
structure Table where
  cols : List String
  rows : List (List Cell)
deriving DecidableEq, Repr

/-- Rendering of one cell by `DataFrame.to_csv(..., na_rep=na_rep,
quoting=csv.QUOTE_NONE)`: strings are emitted verbatim (no extra
quoting), integers in decimal, missing values as `na_rep`. -/
def csvCell (na_rep : String) : Cell → String
  | .str s => s
  | .int n => toString n
  | .na => na_rep

/-- Rendering of one row by the csv writer: fields joined with the
separator. -/
def csvRow (separator na_rep : String) : List Cell → String
  | [] => ""
  | [x] => csvCell na_rep x
  | x :: xs => csvCell na_rep x ++ separator ++ csvRow separator na_rep xs

/-- The text the csv writer emits on success: every row rendered and
terminated with the line terminator `\n`, and the results concatenated. -/
def csvText (separator na_rep : String) : List (List Cell) → String
  | [] => ""
  | r :: rs => csvRow separator na_rep r ++ "\n" ++ csvText separator na_rep rs

/-- The escape test of the stdlib csv writer for one rendered field
under `quoting=csv.QUOTE_NONE` with `escapechar=None` and
`quotechar=None`: a field needs escaping when it contains the delimiter
or a character of the line terminator (modelled as `\n`, the terminator
of the produced text). -/
def csvNeedsEscape (delim : Char) (s : String) : Bool :=
  s.data.any (fun c => c == delim || c == '\n')

/-- Embedding of the `to_csv(mode='a', sep=separator, header=False,
index=False, na_rep=na_rep, quoting=csv.QUOTE_NONE)` call, including
its error paths: the csv writer rejects a separator that is not exactly
one character (`TypeError`), and under `QUOTE_NONE` with no escape
character it raises `need to escape, but no escapechar set` as soon as
any rendered field contains the delimiter or a line-terminator
character; otherwise it returns the rendered text. -/
def to_csv (separator na_rep : String) (rows : List (List Cell)) :
    Except String String :=
  match separator.data with
  | [d] =>
      if rows.any (fun r => r.any (fun x => csvNeedsEscape d (csvCell na_rep x))) then
        .error "need to escape, but no escapechar set"
      else
        .ok (csvText separator na_rep rows)
  | _ => .error "delimiter must be a 1-character string"

/-- Model of Python `str.split(c)` for a one-character separator, on the
character list of the string: `"a\nb\n".split('\n') == ["a","b",""]` and
`"".split('\n') == [""]`. -/
def splitChar (c : Char) : List Char → List (List Char)
  | [] => [[]]
  | x :: xs =>
      if x = c then [] :: splitChar c xs
      else
        match splitChar c xs with
        | [] => [[x]]
        | y :: ys => (x :: y) :: ys

/-- Python `s.split(c)` as a function on strings. -/
def pySplit (s : String) (c : Char) : List String :=
  (splitChar c s.data).map List.asString

/-- Embedding of `loop_block` from `writer.py`: yields
`data_<block_name>`, an empty line, `loop_`, one line per column
(`_<name> #<idx>` with `enumerate(df.columns, 1)` when
`include_line_num`, else `_<name>`), then every element of
`df.map(quote).to_csv(...).split('\n')`, then two empty lines.
`float_format` is carried from the source signature; it only affects
floating-point cells, which are outside the `Cell` embedding.  An
exception raised by the `to_csv` call is modelled as the whole block
enumeration failing (the real generator yields its header lines before
the call raises; no verified claim concerns that partial prefix). -/
def loop_block (block_name : String) (df : Table)
    (float_format separator na_rep quote_character : String)
    (quote_all_strings : Bool) (include_line_num : Bool := true) :
    Except String (List String) :=
  let _ := float_format
  match to_csv separator na_rep
      (df.rows.map (List.map (fun x => quote x quote_character quote_all_strings))) with
  | .error e => .error e
  | .ok csv =>
      .ok (["data_" ++ block_name, "", "loop_"]
        ++ df.cols.enum.map (fun ic =>
            if include_line_num then "_" ++ ic.2 ++ " #" ++ toString (ic.1 + 1)
            else "_" ++ ic.2)
        ++ pySplit csv '\n'
        ++ ["", ""])

/-- A Python runtime value as seen by the coercion code.  The coercion
branches on runtime types only (`isinstance` in `coerce_data_blocks`,
`type(v) in (dict, pd.DataFrame)` in `coerce_dict`), so the embedding
records the type of each object: `df`/`dict` are objects whose exact
type is `pd.DataFrame`/`dict`, while `dfSub`/`dictSub` are instances of
strict subclasses of those types (for which `isinstance` is true but the
`type(v) in (...)` test is false).  `pystr`, `pyint`, `pyna` are the
scalar values, `pylist` a `list`, and `other` any other object, carrying
its type name. -/
inductive PyObj where
  | df (t : Table)
  | dfSub (t : Table)
  | dict (m : List (String × PyObj))
  | dictSub (m : List (String × PyObj))
  | pylist (xs : List PyObj)
  | pystr (s : String)
  | pyint (n : Int)
  | pyna
  | other (typename : String)

/-- Python `type(v)` rendered as in an error message, for the
`ValueError` raised by `coerce_data_blocks`. -/
def typeName : PyObj → String
  | .df _ => "DataFrame"
  | .dfSub _ => "subclass of DataFrame"
  | .dict _ => "dict"
  | .dictSub _ => "subclass of dict"
  | .pylist _ => "list"
  | .pystr _ => "str"
  | .pyint _ => "int"
  | .pyna => "float"
  | .other tn => tn

/-- The test `type(v) in (dict, pd.DataFrame)` from `coerce_dict`: true
exactly on objects whose runtime type is exactly `dict` or exactly
`pd.DataFrame`, false on strict-subclass instances. -/
def typeIsDictOrDataFrame : PyObj → Bool
  | .dict _ => true
  | .df _ => true
  | _ => false

/-- The test `isinstance(v, pd.DataFrame)`: true also on subclasses. -/
def isDataFrameInstance : PyObj → Bool
  | .df _ => true
  | .dfSub _ => true
  | _ => false

/-- The test `isinstance(v, dict)`: true also on subclasses. -/
def isDictInstance : PyObj → Bool
  | .dict _ => true
  | .dictSub _ => true
  | _ => false

/-- The test `isinstance(v, list)`. -/
def isListInstance : PyObj → Bool
  | .pylist _ => true
  | _ => false

/-- Embedding of `coerce_dataframe`: the dict with the single entry
holding the input under the empty block name. -/
def coerce_dataframe (v : PyObj) : List (String × PyObj) :=
  [("", v)]

/-- Embedding of `coerce_dict`: the loop over `data_blocks.items()`
returns the dict unchanged on the first value with
`type(v) in (dict, pd.DataFrame)`; if no value passes the test the
whole dict is wrapped as `return ('' : data_blocks)` under the empty
block name. -/
def coerce_dict (data_blocks : List (String × PyObj)) : List (String × PyObj) :=
  if data_blocks.any (fun kv => typeIsDictOrDataFrame kv.2) then data_blocks
  else [("", .dict data_blocks)]

/-- Embedding of `coerce_list`: the dict comprehension
`(f-string of idx : df) for idx, df in enumerate(data_blocks)`. -/
def coerce_list (data_blocks : List PyObj) : List (String × PyObj) :=
  data_blocks.enum.map (fun iv => (toString iv.1, iv.2))

/-- The `ValueError` message of `coerce_data_blocks`, up to the
whitespace of the source line continuations: it names the three accepted
shapes and ends with the runtime type of the rejected input. -/
def coerceErrorMessage (tn : String) : String :=
  "Expected DataFrame, Dict of str to DataFrame, or List of DataFrame, got " ++ tn

/-- Embedding of `StarWriter.coerce_data_blocks`: the `isinstance`
dispatch to `coerce_dataframe` / `coerce_dict` / `coerce_list`, in
source order, and the `ValueError` on everything else. -/
def coerce_data_blocks (data_blocks : PyObj) : Except String (List (String × PyObj)) :=
  if isDataFrameInstance data_blocks then
    .ok (coerce_dataframe data_blocks)
  else
    match data_blocks with
    | .dict m => .ok (coerce_dict m)
    | .dictSub m => .ok (coerce_dict m)
    | .pylist xs => .ok (coerce_list xs)
    | v => .error (coerceErrorMessage (typeName v))

/-- Block-shaped value in the sense of the data model: a Table (any
DataFrame instance) or a Mapping (any dict instance). -/
def isBlockValue : PyObj → Bool
  | .df _ => true
  | .dfSub _ => true
  | .dict _ => true
  | .dictSub _ => true
  | _ => false

/-- The runtime types a value of the declared input type
`Union[DataBlock, Dict[str, DataBlock], List[DataBlock]]` can put
inside a dict: a DataFrame, a dict, or a scalar — no strict-subclass
instances of `dict` / `pd.DataFrame` and no nested lists. -/
def declaredValue : PyObj → Bool
  | .df _ => true
  | .dict _ => true
  | .pystr _ => true
  | .pyint _ => true
  | .pyna => true
  | _ => false

/-- File-system state: an association list from path to file content.
Paths are plain strings; `Path.resolve()` is modelled as the identity. -/
abbrev FS := List (String × String)

namespace FS

/-- Content of the file at `p`, when it exists. -/
def read : FS → String → Option String
  | [], _ => none
  | e :: fs, p => if e.1 = p then some e.2 else read fs p

/-- The `Path.exists()` test. -/
def fileExists (fs : FS) (p : String) : Bool :=
  (read fs p).isSome

/-- The `Path.unlink()` call: remove the file at `p`. -/
def unlink : FS → String → FS
  | [], _ => []
  | e :: fs, p => if e.1 = p then unlink fs p else e :: unlink fs p

/-- Creating or truncating the file at `p` (mode `w+`) and writing `c`. -/
def writeFile (fs : FS) (p c : String) : FS :=
  (p, c) :: unlink fs p

/-- The `Path.rename(q)` call: move the file at `p` to `q`. -/
def rename (fs : FS) (p q : String) : FS :=
  match read fs p with
  | none => fs
  | some c => writeFile (unlink fs p) q c

end FS

/-- The backup path of a destination: `filename.name + '~'` placed in
the (resolved) parent directory, i.e. the same path with a trailing
tilde. -/
def backupPath (p : String) : String := p ++ "~"

/-- Embedding of `StarWriter.backup_if_file_exists` (run by
`__init__`): when a destination is configured and a file exists there,
delete any file already at the backup path, then rename the destination
file to the backup path. -/
def backup_if_file_exists (filename : Option String) (fs : FS) : FS :=
  match filename with
  | none => fs
  | some p =>
      if FS.fileExists fs p then
        let bp := backupPath p
        let fs1 := if FS.fileExists fs bp then FS.unlink fs bp else fs
        FS.rename fs1 p bp
      else fs

/-- The content `write` produces: every line of `lines()` with a
newline appended, concatenated (`f.writelines`). -/
def renderedContent (ls : List String) : String :=
  String.join (ls.map (fun l => l ++ "\n"))

/-- Embedding of `StarWriter.write`: `raise ValueError('Cannot write
nameless file!')` when no destination is configured, otherwise open the
destination (mode `w+`) and write all rendered lines. -/
def write (filename : Option String) (ls : List String) (fs : FS) :
    Except String FS :=
  match filename with
  | none => .error "Cannot write nameless file!"
  | some p => .ok (FS.writeFile fs p (renderedContent ls))

/-! ## Theorems -/

/-- Emptiness of a string is emptiness of its character list. -/
theorem string_eq_empty_iff (s : String) : s = "" ↔ s.data = [] := by
  rw [String.ext_iff]

/-- Spelled-out quoting condition of `quote`. -/
theorem quote_cond (s : String) (qc : String) (qas : Bool) :
    quote (.str s) qc qas =
      if qas = true ∨ ' ' ∈ s.data ∨ s = "" then .str (qc ++ s ++ qc)
      else .str s := by
  simp only [quote, Bool.or_eq_true, List.elem_eq_mem, decide_eq_true_eq,
    List.isEmpty_iff]
  exact if_congr (by rw [string_eq_empty_iff, or_assoc]) rfl rfl

/-- C2: the Value Formatter `quote` wraps its argument in the quote
character on both sides exactly when the argument is a string and
(`quote_all_strings` is set, or the string contains a space, or the
string is empty); any other value is returned unchanged; and the empty
string always becomes exactly two quote characters with nothing between
them. -/
theorem quote_spec (v : Cell) (qc : String) (qas : Bool) :
    (∀ s, v = Cell.str s →
      ((qas = true ∨ ' ' ∈ s.data ∨ s = "") →
        quote v qc qas = Cell.str (qc ++ s ++ qc))
      ∧ ((qas = false ∧ ' ' ∉ s.data ∧ s ≠ "") → quote v qc qas = Cell.str s))
    ∧ ((∀ s, v ≠ Cell.str s) → quote v qc qas = v)
    ∧ quote (Cell.str "") qc qas = Cell.str (qc ++ qc) := by
  refine ⟨?_, ?_, ?_⟩
  · rintro s rfl
    rw [quote_cond]
    constructor
    · intro hcond
      rw [if_pos hcond]
    · rintro ⟨h1, h2, h3⟩
      rw [if_neg]
      rintro (h | h | h)
      · exact absurd h (by simp [h1])
      · exact h2 h
      · exact h3 h
  · intro hns
    cases v with
    | str s => exact absurd rfl (hns s)
    | int n => rfl
    | na => rfl
  · rw [quote_cond, if_pos (Or.inr (Or.inr rfl))]
    simp

/-- Witness for `quote_spec`: a string with a space is quoted, a plain
string is not, the empty string becomes two quote characters, and an
integer passes through unchanged. -/
theorem quote_spec_witness :
    quote (Cell.str "a b") "\"" false = Cell.str "\"a b\""
    ∧ quote (Cell.str "hi") "\"" false = Cell.str "hi"
    ∧ quote (Cell.str "") "\"" false = Cell.str "\"\""
    ∧ quote (Cell.int 3) "\"" true = Cell.int 3 :=
  ⟨((quote_spec (Cell.str "a b") "\"" false).1 "a b" rfl).1
      (Or.inr (Or.inl (by decide))),
   ((quote_spec (Cell.str "hi") "\"" false).1 "hi" rfl).2
      ⟨rfl, by decide, by decide⟩,
   (quote_spec (Cell.str "") "\"" false).2.2,
   (quote_spec (Cell.int 3) "\"" true).2.1 (fun s h => Cell.noConfusion h)⟩

/-- C9: the Value Formatter is a pure function (a Lean function of its
arguments), it is the identity on every value already satisfying the
non-quote condition (not a string, or a non-empty space-free string
while `quote_all_strings` is false) — hence repeated application
renders such values identically — and `quote ∘ quote = quote` fails in
general, witnessed by a string containing a space. -/
theorem quote_identity_on_unquoted :
    (∀ (v : Cell) (qc : String) (qas : Bool),
      (∀ s, v = Cell.str s → qas = false ∧ ' ' ∉ s.data ∧ s ≠ "") →
        quote v qc qas = v
        ∧ quote (quote v qc qas) qc qas = quote v qc qas)
    ∧ quote (quote (Cell.str "a b") "\"" false) "\"" false
        ≠ quote (Cell.str "a b") "\"" false := by
  constructor
  · intro v qc qas h
    have hv : quote v qc qas = v := by
      cases v with
      | str s =>
          obtain ⟨h1, h2, h3⟩ := h s rfl
          rw [quote_cond, if_neg]
          rintro (hc | hc | hc)
          · exact absurd hc (by simp [h1])
          · exact h2 hc
          · exact h3 hc
      | int n => rfl
      | na => rfl
    exact ⟨hv, by rw [hv, hv]⟩
  · decide

/-- Witness for `quote_identity_on_unquoted`: the non-quote condition
holds for a plain non-empty string without spaces, and for an integer. -/
theorem quote_identity_on_unquoted_witness :
    (quote (Cell.str "hi") "\"" false = Cell.str "hi"
      ∧ quote (quote (Cell.str "hi") "\"" false) "\"" false
          = quote (Cell.str "hi") "\"" false)
    ∧ quote (Cell.int 5) "\"" false = Cell.int 5 :=
  ⟨quote_identity_on_unquoted.1 (Cell.str "hi") "\"" false
      (by rintro s h; cases h; exact ⟨rfl, by decide, by decide⟩),
   (quote_identity_on_unquoted.1 (Cell.int 5) "\"" false
      (fun s h => Cell.noConfusion h)).1⟩

/-- Appending to a string whose first character differs from the first
character of `t` never yields `t`. -/
theorem append_ne_of_head_ne (a n t : String) (c d : Char) (ra : List Char)
    (ha : a.data = c :: ra) (ht : t.data.head? = some d) (hcd : c ≠ d) :
    a ++ n ≠ t := by
  intro h
  have h2 := congrArg (fun s => s.data.head?) h
  simp only [String.data_append, ha, List.cons_append, List.head?_cons, ht] at h2
  exact hcd (Option.some.inj h2)

/-- C5: the Key-Value Renderer `simple_block` produces exactly the line
`data_<name>`, one empty line, one line per entry in mapping order made
of `_<key>`, the field separator region (three tabs in the source) and
the Value Formatter rendering of the value, then exactly two trailing
empty lines; no `loop_` line is ever emitted; and on the mapping
`alpha ↦ 1, beta ↦ hi` the entry lines carry `1` and `hi` unquoted. -/
theorem simple_block_spec (block_name : String) (data : List (String × Cell))
    (qc : String) (qas : Bool) :
    (simple_block block_name data qc qas =
      ["data_" ++ block_name, ""]
        ++ data.map (fun kv => "_" ++ kv.1 ++ "\t\t\t" ++ pyStr (quote kv.2 qc qas))
        ++ ["", ""])
    ∧ "loop_" ∉ simple_block block_name data qc qas
    ∧ simple_block "" [("alpha", Cell.int 1), ("beta", Cell.str "hi")] "\"" false =
        ["data_", "", "_alpha\t\t\t1", "_beta\t\t\thi", "", ""] := by
  refine ⟨rfl, ?_, by decide⟩
  intro hmem
  simp only [simple_block, List.cons_append, List.nil_append, List.mem_cons,
    List.mem_append, List.mem_map] at hmem
  rcases hmem with h | h | h | h
  · exact append_ne_of_head_ne "data_" block_name "loop_" 'd' 'l' _ rfl rfl
      (by decide) h.symm
  · exact absurd h.symm (by decide)
  · obtain ⟨kv, _, hkv⟩ := h
    exact append_ne_of_head_ne "_" (kv.1 ++ "\t\t\t" ++ pyStr (quote kv.2 qc qas))
      "loop_" '_' 'l' _ rfl rfl (by decide) (by simpa [String.append_assoc] using hkv)
  · rcases h with h | h | h
    · exact absurd h.symm (by decide)
    · exact absurd h.symm (by decide)
    · simp at h

/-- Witness for `simple_block_spec` at a concrete two-entry mapping:
the rendered lines, and the absence of a `loop_` line. -/
theorem simple_block_spec_witness :
    simple_block "mb" [("alpha", Cell.int 1), ("beta", Cell.str "hi")] "\"" false =
      ["data_mb", "", "_alpha\t\t\t1", "_beta\t\t\thi", "", ""]
    ∧ "loop_" ∉ simple_block "mb" [("alpha", Cell.int 1), ("beta", Cell.str "hi")] "\"" false :=
  ⟨by decide,
   (simple_block_spec "mb" [("alpha", Cell.int 1), ("beta", Cell.str "hi")] "\"" false).2.1⟩

/-- The result of `splitChar` is never the empty list of chunks. -/
theorem splitChar_ne_nil (c : Char) (l : List Char) : splitChar c l ≠ [] := by
  induction l with
  | nil => simp [splitChar]
  | cons x xs ih =>
      by_cases hx : x = c
      · simp [splitChar, hx]
      · rcases h : splitChar c xs with _ | ⟨y, ys⟩
        · exact absurd h ih
        · simp [splitChar, hx, h]

/-- Splitting a concatenation at its separator: the separator-free part
becomes the first chunk. -/
theorem splitChar_append_cons (c : Char) (a b : List Char) (ha : c ∉ a) :
    splitChar c (a ++ c :: b) = a :: splitChar c b := by
  induction a with
  | nil => simp [splitChar]
  | cons x xs ih =>
      simp only [List.mem_cons, not_or] at ha
      obtain ⟨hx, hxs⟩ := ha
      have hx' : ¬ (x = c) := fun hcc => hx hcc.symm
      rw [List.cons_append]
      simp only [splitChar, ih hxs]
      rw [if_neg hx']

/-- Python split of the csv writer output: one chunk per row plus one
final empty chunk contributed by the trailing newline of the CSV text,
provided no rendered row contains a newline. -/
theorem pySplit_csvText (sep na : String) (rows : List (List Cell))
    (h : ∀ r ∈ rows, '\n' ∉ (csvRow sep na r).data) :
    pySplit (csvText sep na rows) '\n' = rows.map (csvRow sep na) ++ [""] := by
  induction rows with
  | nil => rfl
  | cons r rs ih =>
      have hdata : (csvText sep na (r :: rs)).data =
          (csvRow sep na r).data ++ '\n' :: (csvText sep na rs).data := by
        simp [csvText, String.data_append]
      unfold pySplit
      rw [hdata, splitChar_append_cons '\n' _ _ (h r (List.mem_cons_self r rs))]
      have ih2 := ih (fun x hx => h x (List.mem_cons_of_mem r hx))
      unfold pySplit at ih2
      simp only [List.map_cons, ih2, List.map_append]
      rfl

/-- A field that passes the escape test contains no newline. -/
theorem no_newline_of_not_escape (d : Char) (s : String)
    (h : csvNeedsEscape d s = false) : '\n' ∉ s.data := by
  intro hm
  have h2 := List.any_eq_false.1 h '\n' hm
  simp at h2

/-- A row joined from newline-free fields with a newline-free separator
is newline-free. -/
theorem csvRow_no_newline (sep na : String) (r : List Cell)
    (hsep : '\n' ∉ sep.data)
    (h : ∀ x ∈ r, '\n' ∉ (csvCell na x).data) :
    '\n' ∉ (csvRow sep na r).data := by
  induction r with
  | nil => simp [csvRow]
  | cons x xs ih =>
      cases xs with
      | nil => exact h x (List.mem_cons_self x [])
      | cons y ys =>
          have hx := h x (List.mem_cons_self x (y :: ys))
          have hxs := ih (fun z hz => h z (List.mem_cons_of_mem x hz))
          show '\n' ∉ (csvCell na x ++ sep ++ csvRow sep na (y :: ys)).data
          simp only [String.data_append, List.mem_append, not_or]
          exact ⟨⟨hx, hsep⟩, hxs⟩

/-- The csv serialization succeeds exactly on a one-character separator
with no rendered field needing escape, and then returns the row text. -/
theorem to_csv_ok (d : Char) (sep na : String) (rows : List (List Cell))
    (hd : sep.data = [d])
    (hesc : ∀ r ∈ rows, ∀ x ∈ r, csvNeedsEscape d (csvCell na x) = false) :
    to_csv sep na rows = .ok (csvText sep na rows) := by
  have hany : rows.any (fun r => r.any (fun x => csvNeedsEscape d (csvCell na x))) = false := by
    rw [List.any_eq_false]
    intro r hr hb
    rcases List.any_eq_true.1 hb with ⟨x, hx, hxb⟩
    rw [hesc r hr x hx] at hxb
    exact Bool.false_ne_true hxb
  have h1 : to_csv sep na rows =
      (if rows.any (fun r => r.any (fun x => csvNeedsEscape d (csvCell na x))) then
        Except.error "need to escape, but no escapechar set"
      else .ok (csvText sep na rows)) := by
    unfold to_csv
    rw [hd]
  rw [h1, if_neg (by rw [hany]; exact Bool.false_ne_true)]

/-- C1 as corrected: on a one-character separator other than the line
terminator, and when no rendered cell needs escaping (contains the
delimiter or a newline — the inputs on which the csv writer raises
instead), the Relational Table Renderer `loop_block` produces the line
`data_<name>`, one empty line, `loop_`, one line
`_<column> #<1-based index>` per column (just `_<column>` when column
numbering is disabled), one line per row — its cells passed through the
Value Formatter, rendered by the CSV serializer and joined with the
configured separator — and then exactly THREE trailing empty lines: the
CSV text ends with a newline, so splitting it contributes one empty
line before the two explicit block-terminator lines.  The final
conjunct shows the collapsed case: a cell containing the tab separator
makes the serializer raise `need to escape, but no escapechar set`. -/
theorem loop_block_spec (block_name : String) (df : Table)
    (ffmt sep na qc : String) (qas : Bool) (d : Char)
    (hd : sep.data = [d]) (hne : d ≠ '\n')
    (hesc : ∀ r ∈ df.rows, ∀ x ∈ r,
      csvNeedsEscape d (csvCell na (quote x qc qas)) = false) :
    (loop_block block_name df ffmt sep na qc qas true =
      .ok (["data_" ++ block_name, "", "loop_"]
        ++ df.cols.enum.map (fun ic => "_" ++ ic.2 ++ " #" ++ toString (ic.1 + 1))
        ++ df.rows.map (fun r => csvRow sep na (r.map (fun x => quote x qc qas)))
        ++ ["", "", ""]))
    ∧ (loop_block block_name df ffmt sep na qc qas false =
      .ok (["data_" ++ block_name, "", "loop_"]
        ++ df.cols.enum.map (fun ic => "_" ++ ic.2)
        ++ df.rows.map (fun r => csvRow sep na (r.map (fun x => quote x qc qas)))
        ++ ["", "", ""]))
    ∧ loop_block "n" ⟨["x"], [[Cell.str "a\tb"]]⟩ "%.6f" "\t" "<NA>" "\"" false true
        = .error "need to escape, but no escapechar set" := by
  have hesc2 : ∀ r ∈ df.rows.map (List.map (fun x => quote x qc qas)), ∀ y ∈ r,
      csvNeedsEscape d (csvCell na y) = false := by
    intro r' hr' y hy
    obtain ⟨r, hr, rfl⟩ := List.mem_map.1 hr'
    obtain ⟨x, hx, rfl⟩ := List.mem_map.1 hy
    exact hesc r hr x hx
  have hsep : '\n' ∉ sep.data := by
    rw [hd]
    intro hm
    rcases hm with _ | ⟨_, h2⟩
    · exact hne rfl
    · cases h2
  have hrow : ∀ r' ∈ df.rows.map (List.map (fun x => quote x qc qas)),
      '\n' ∉ (csvRow sep na r').data := fun r' hr' =>
    csvRow_no_newline sep na r' hsep
      (fun y hy => no_newline_of_not_escape d _ (hesc2 r' hr' y hy))
  have hok := to_csv_ok d sep na (df.rows.map (List.map (fun x => quote x qc qas)))
    hd hesc2
  have hsplit := pySplit_csvText sep na _ hrow
  rw [List.map_map] at hsplit
  refine ⟨?_, ?_, rfl⟩
  · unfold loop_block
    rw [hok]
    simp only [if_true, hsplit, List.append_assoc]
    rfl
  · unfold loop_block
    rw [hok]
    simp only [if_false, hsplit, List.append_assoc]
    rfl

/-- Witness for `loop_block_spec` at the table with columns `x, y` and
the single row `(1, "a b")` under the default tab separator: the row
line quotes the spaced string and joins with a tab, and three empty
lines close the block. -/
theorem loop_block_spec_witness :
    loop_block "n" ⟨["x", "y"], [[Cell.int 1, Cell.str "a b"]]⟩
        "%.6f" "\t" "<NA>" "\"" false true =
      .ok ["data_n", "", "loop_", "_x #1", "_y #2", "1\t\"a b\"", "", "", ""] := by
  rw [(loop_block_spec "n" ⟨["x", "y"], [[Cell.int 1, Cell.str "a b"]]⟩
      "%.6f" "\t" "<NA>" "\"" false '\t' rfl (by decide) (by decide)).1]
  simp only [Except.ok.injEq]
  decide

/-- Counterexample to C1 as stated: with column numbering enabled, the
block for the one-column one-row table is NOT the claimed seven-line
sequence ending in two empty lines — the renderer emits three trailing
empty lines. -/
theorem loop_block_two_trailing_counterexample :
    loop_block "n" ⟨["x"], [[Cell.int 1]]⟩ "%.6f" "\t" "<NA>" "\"" false true
      ≠ .ok ["data_n", "", "loop_", "_x #1", "1", "", ""]
    ∧ loop_block "n" ⟨["x"], [[Cell.int 1]]⟩ "%.6f" "\t" "<NA>" "\"" false true
      = .ok ["data_n", "", "loop_", "_x #1", "1", "", "", ""] := by
  have h8 : loop_block "n" ⟨["x"], [[Cell.int 1]]⟩ "%.6f" "\t" "<NA>" "\"" false true
      = .ok ["data_n", "", "loop_", "_x #1", "1", "", "", ""] := rfl
  refine ⟨?_, h8⟩
  intro h
  rw [h8] at h
  exact absurd (Except.ok.inj h) (by decide)

/-- C8: invoking `write` with no configured destination fails with the
`ValueError` carrying the message `Cannot write nameless file!`, and
neither `write` nor the constructor-time backup step touches any file
in that case — the file system passes through unchanged. -/
theorem write_none_spec (ls : List String) (fs : FS) :
    write none ls fs = .error "Cannot write nameless file!"
    ∧ backup_if_file_exists none fs = fs :=
  ⟨rfl, rfl⟩

/-- Reading a path other than the unlinked one is unaffected. -/
theorem FS.read_unlink_ne (fs : FS) (p q : String) (h : q ≠ p) :
    FS.read (FS.unlink fs p) q = FS.read fs q := by
  induction fs with
  | nil => rfl
  | cons e fs ih =>
      by_cases he : e.1 = p
      · have hq : ¬ (e.1 = q) := fun hc => h (hc.symm.trans he)
        simp only [FS.unlink, if_pos he, ih, FS.read, if_neg hq]
      · simp only [FS.unlink, if_neg he, FS.read, ih]

/-- The unlinked path no longer exists. -/
theorem FS.read_unlink_self (fs : FS) (p : String) :
    FS.read (FS.unlink fs p) p = none := by
  induction fs with
  | nil => rfl
  | cons e fs ih =>
      by_cases he : e.1 = p
      · simp [FS.unlink, he, ih]
      · simp [FS.unlink, FS.read, he, ih]

/-- The written path holds the written content. -/
theorem FS.read_writeFile_self (fs : FS) (p c : String) :
    FS.read (FS.writeFile fs p c) p = some c := by
  simp [FS.writeFile, FS.read]

/-- Writing one path leaves every other path unchanged. -/
theorem FS.read_writeFile_ne (fs : FS) (p q c : String) (h : q ≠ p) :
    FS.read (FS.writeFile fs p c) q = FS.read fs q := by
  have hpq : ¬ (p = q) := fun hc => h hc.symm
  simp only [FS.writeFile, FS.read]
  rw [if_neg hpq]
  exact FS.read_unlink_ne fs p q h

/-- A path never equals its own backup path. -/
theorem backupPath_ne (p : String) : p ≠ backupPath p := by
  intro h
  have hl := congrArg String.length h
  rw [backupPath, String.length_append] at hl
  simp at hl
  exact absurd hl (by decide)

/-- C3: writing to a destination that already holds a file.  The
constructor-time `backup_if_file_exists` step deletes any pre-existing
file at the backup path and renames the original into the backup slot,
so before any byte of the new file is written the intermediate state
`fs1` already holds the original content at `<name>~` and nothing at
the destination; `write` then produces a state holding exactly the
newly rendered content at the destination and the original content in
the backup file. -/
theorem write_backup_spec (p old : String) (ls : List String) (fs : FS)
    (h : FS.read fs p = some old) :
    ∃ fs1 fs2,
      backup_if_file_exists (some p) fs = fs1
      ∧ write (some p) ls fs1 = .ok fs2
      ∧ FS.read fs1 (backupPath p) = some old
      ∧ FS.read fs1 p = none
      ∧ FS.read fs2 p = some (renderedContent ls)
      ∧ FS.read fs2 (backupPath p) = some old := by
  have hbp : p ≠ backupPath p := backupPath_ne p
  have hex : FS.fileExists fs p = true := by simp [FS.fileExists, h]
  have hfs0 : FS.read
      (if FS.fileExists fs (backupPath p) then FS.unlink fs (backupPath p) else fs)
      p = some old := by
    split
    · rw [FS.read_unlink_ne fs (backupPath p) p hbp]
      exact h
    · exact h
  have hback : backup_if_file_exists (some p) fs =
      FS.writeFile
        (FS.unlink
          (if FS.fileExists fs (backupPath p) then FS.unlink fs (backupPath p) else fs)
          p)
        (backupPath p) old := by
    show (if FS.fileExists fs p then _ else fs) = _
    rw [if_pos hex]
    show FS.rename _ p (backupPath p) = _
    unfold FS.rename
    rw [hfs0]
  refine ⟨_, _, rfl, rfl, ?_, ?_, ?_, ?_⟩
  · rw [hback]
    exact FS.read_writeFile_self _ _ _
  · rw [hback, FS.read_writeFile_ne _ _ _ _ hbp]
    exact FS.read_unlink_self _ _
  · exact FS.read_writeFile_self _ _ _
  · rw [FS.read_writeFile_ne _ _ _ _ (fun hc => hbp hc.symm), hback]
    exact FS.read_writeFile_self _ _ _

/-- Witness for `write_backup_spec` at a file system that already holds
both the destination file and a stale backup. -/
theorem write_backup_spec_witness :
    ∃ fs1 fs2,
      backup_if_file_exists (some "f.star") [("f.star", "old"), ("f.star~", "stale")] = fs1
      ∧ write (some "f.star") ["line"] fs1 = .ok fs2
      ∧ FS.read fs1 (backupPath "f.star") = some "old"
      ∧ FS.read fs1 "f.star" = none
      ∧ FS.read fs2 "f.star" = some (renderedContent ["line"])
      ∧ FS.read fs2 (backupPath "f.star") = some "old" :=
  write_backup_spec "f.star" "old" ["line"]
    [("f.star", "old"), ("f.star~", "stale")] (by decide)

/-- On values of the declared input type, being a block in the data
model sense coincides with passing the exact-runtime-type test of
`coerce_dict`. -/
theorem declaredValue_block (v : PyObj) (h : declaredValue v = true) :
    isBlockValue v = typeIsDictOrDataFrame v := by
  cases v <;> simp_all [declaredValue, isBlockValue, typeIsDictOrDataFrame]

/-- The dict branch of `coerce_data_blocks` defers to `coerce_dict`. -/
theorem coerce_data_blocks_dict (m : List (String × PyObj)) :
    coerce_data_blocks (.dict m) = .ok (coerce_dict m) := rfl

/-- C4: for a mapping input over the declared value universe, if at
least one value is block-shaped (a Table or a Mapping) then coercion
returns the mapping unchanged in structure as the multi-block document,
and if no value is block-shaped the whole mapping is wrapped as a
single key-value block under the empty-string block name. -/
theorem coerce_dict_spec (m : List (String × PyObj))
    (hdecl : ∀ kv ∈ m, declaredValue kv.2 = true) :
    ((∃ kv ∈ m, isBlockValue kv.2 = true) →
      coerce_dict m = m ∧ coerce_data_blocks (.dict m) = .ok m)
    ∧ ((∀ kv ∈ m, isBlockValue kv.2 = false) →
      coerce_dict m = [("", .dict m)]
      ∧ coerce_data_blocks (.dict m) = .ok [("", .dict m)]) := by
  constructor
  · rintro ⟨kv, hkv, hb⟩
    have hany : m.any (fun kv => typeIsDictOrDataFrame kv.2) = true :=
      List.any_eq_true.2 ⟨kv, hkv, by rw [← declaredValue_block kv.2 (hdecl kv hkv)]; exact hb⟩
    have hcd : coerce_dict m = m := by
      unfold coerce_dict
      rw [if_pos hany]
    exact ⟨hcd, by rw [coerce_data_blocks_dict, hcd]⟩
  · intro hall
    have hany : m.any (fun kv => typeIsDictOrDataFrame kv.2) = false :=
      List.any_eq_false.2 (fun kv hkv hb => by
        rw [← declaredValue_block kv.2 (hdecl kv hkv), hall kv hkv] at hb
        exact Bool.false_ne_true hb)
    have hcd : coerce_dict m = [("", .dict m)] := by
      unfold coerce_dict
      rw [if_neg (by rw [hany]; exact Bool.false_ne_true)]
    exact ⟨hcd, by rw [coerce_data_blocks_dict, hcd]⟩

/-- Witness for `coerce_dict_spec`: a mapping with a DataFrame value
passes through unchanged; a mapping of scalars is wrapped under the
empty block name. -/
theorem coerce_dict_spec_witness :
    coerce_dict [("b", PyObj.df ⟨[], []⟩), ("c", PyObj.pyint 2)]
      = [("b", PyObj.df ⟨[], []⟩), ("c", PyObj.pyint 2)]
    ∧ coerce_dict [("alpha", PyObj.pyint 1), ("beta", PyObj.pystr "hi")]
      = [("", PyObj.dict [("alpha", PyObj.pyint 1), ("beta", PyObj.pystr "hi")])] :=
  ⟨((coerce_dict_spec _ (by
      intro kv hkv
      rcases hkv with _ | ⟨_, h2⟩
      · rfl
      · rcases h2 with _ | ⟨_, h3⟩
        · rfl
        · cases h3)).1
      ⟨("b", PyObj.df ⟨[], []⟩), List.mem_cons_self _ _, rfl⟩).1,
   ((coerce_dict_spec _ (by
      intro kv hkv
      rcases hkv with _ | ⟨_, h2⟩
      · rfl
      · rcases h2 with _ | ⟨_, h3⟩
        · rfl
        · cases h3)).2 (by
      intro kv hkv
      rcases hkv with _ | ⟨_, h2⟩
      · rfl
      · rcases h2 with _ | ⟨_, h3⟩
        · rfl
        · cases h3)).1⟩

/-- C7: on an input that is no DataFrame instance, no dict instance and
no list instance, coercion fails immediately with the `ValueError`
whose message ends with the runtime type of the rejected input, and no
document is produced. -/
theorem coerce_data_blocks_invalid (v : PyObj)
    (h1 : isDataFrameInstance v = false) (h2 : isDictInstance v = false)
    (h3 : isListInstance v = false) :
    coerce_data_blocks v = .error (coerceErrorMessage (typeName v))
    ∧ (∃ pre, coerceErrorMessage (typeName v) = pre ++ typeName v)
    ∧ (∀ doc, coerce_data_blocks v ≠ .ok doc) := by
  have herr : coerce_data_blocks v = .error (coerceErrorMessage (typeName v)) := by
    cases v <;> first
      | rfl
      | simp_all [isDataFrameInstance, isDictInstance, isListInstance]
  refine ⟨herr, ⟨_, rfl⟩, ?_⟩
  intro doc hok
  rw [herr] at hok
  exact Except.noConfusion hok

/-- Witness for `coerce_data_blocks_invalid` at a bare string input. -/
theorem coerce_data_blocks_invalid_witness :
    coerce_data_blocks (PyObj.pystr "x")
      = .error (coerceErrorMessage (typeName (PyObj.pystr "x"))) :=
  (coerce_data_blocks_invalid (PyObj.pystr "x") rfl rfl rfl).1

/-- C10: block-shape classification in `coerce_dict` tests the exact
runtime type.  A strict-subclass instance of `dict` or of
`pd.DataFrame` is a block in the data-model sense but fails the
`type(v) in (dict, pd.DataFrame)` test, so a mapping all of whose
values are such instances — and likewise the empty mapping — is
wrapped whole as a single key-value block under the empty-string block
name instead of being treated as a multi-block document. -/
theorem coerce_dict_exact_type (m : List (String × PyObj))
    (h : ∀ kv ∈ m, (∃ t, kv.2 = PyObj.dfSub t) ∨ (∃ x, kv.2 = PyObj.dictSub x)) :
    coerce_dict m = [("", PyObj.dict m)]
    ∧ (∀ kv ∈ m, isBlockValue kv.2 = true ∧ typeIsDictOrDataFrame kv.2 = false)
    ∧ coerce_dict [] = [("", PyObj.dict [])] := by
  have hval : ∀ kv ∈ m, isBlockValue kv.2 = true ∧ typeIsDictOrDataFrame kv.2 = false := by
    intro kv hkv
    rcases h kv hkv with ⟨t, ht⟩ | ⟨x, hx⟩
    · rw [ht]
      exact ⟨rfl, rfl⟩
    · rw [hx]
      exact ⟨rfl, rfl⟩
  refine ⟨?_, hval, rfl⟩
  have hany : m.any (fun kv => typeIsDictOrDataFrame kv.2) = false :=
    List.any_eq_false.2 (fun kv hkv hb => by
      rw [(hval kv hkv).2] at hb
      exact Bool.false_ne_true hb)
  unfold coerce_dict
  rw [if_neg (by rw [hany]; exact Bool.false_ne_true)]

/-- Witness for `coerce_dict_exact_type`: a mapping holding one dict
subclass instance and one DataFrame subclass instance is wrapped. -/
theorem coerce_dict_exact_type_witness :
    coerce_dict [("a", PyObj.dictSub [("k", PyObj.pyint 1)]), ("b", PyObj.dfSub ⟨["x"], []⟩)]
      = [("", PyObj.dict
          [("a", PyObj.dictSub [("k", PyObj.pyint 1)]), ("b", PyObj.dfSub ⟨["x"], []⟩)])] :=
  (coerce_dict_exact_type _ (by
    intro kv hkv
    rcases hkv with _ | ⟨_, h2⟩
    · exact Or.inr ⟨_, rfl⟩
    · rcases h2 with _ | ⟨_, h3⟩
      · exact Or.inl ⟨_, rfl⟩
      · cases h3)).1

end Starfile
